import Mathlib

/-!
Shallow embedding of the tax-unit construction core of cpstaxunits
(src/cpsrets.py, class Returns) and proofs about the frozen claims.

Modelling conventions:
* Python floats on money fields (incomes, thresholds, benefit values
  and probabilities) are modelled by Int: every operation the source
  performs on them is addition, subtraction, multiplication by an
  integer, or an order comparison, all exact over the integers, and the
  input data carries integral amounts.  The only two genuine divisions
  (the support-test ratio of ifdept and the 99-percent income share of
  hhstatus) are modelled as exact comparisons of rational casts; both
  sit behind a positivity guard exactly as in the source.
* Ages and counters are Python ints, modelled by Int.
* np.nan (the missing spouse age of a single unit) is modelled by
  Option Int = none; every comparison against nan is false in Python,
  which is exactly the behaviour of the none case of checkAgeOpt.
* A Python dict-record is a structure holding the fields some claim can
  observe; fields that are copied around but never read by any claim
  (the z* evaluation fields, weights, health-insurance and blindness
  indicators, ...) are omitted.
* The dynamically named slot families dep1..depN / depage1..depageN are
  modelled by the list field deps (position i of the list is slot i+1);
  the benefit probability/value slot families BEN_PROBi / BEN_VALi are
  modelled by the list field benSlots, position i being slot i+1, so
  that ben_number = benSlots.length + 1.
-/

/-- One benefit program's imputed (probability, value) pair for one person.
In the CPS dataframe these are the columns (ssi_probs, ssi_impute),
(vb_probs, vb_impute), (snap_probs, snap_impute), (mcare_probs, MedicareX),
(mcaid_probs, MedicaidX), (ss_probs, ss_val_y), (tanf_probs, tanf_impute),
(ui_probs, ui_impute), (housing_probs, housing_impute),
(wic_probs, wic_impute), in the order of add_benefit's ben_list. -/
structure BenData where
  ssi : Int × Int
  vb : Int × Int
  snap : Int × Int
  mcare : Int × Int
  mcaid : Int × Int
  ss : Int × Int
  tanf : Int × Int
  ui : Int × Int
  housing : Int × Int
  wic : Int × Int
deriving DecidableEq

/-- The all-zero benefit slot: in __init__ every BEN_PROBi / BEN_VALi key
of a fresh unit is initialised to 0., and slot 2 keeps those zeros when
the unit has no spouse. -/
def zeroBen : BenData :=
  ⟨(0, 0), (0, 0), (0, 0), (0, 0), (0, 0), (0, 0), (0, 0), (0, 0), (0, 0), (0, 0)⟩

/-- One row of the CPS person table, restricted to the columns the
embedded functions read. The three flags are the mutable membership
flags initialised to False in Returns.__init__ (h_flag is never set to
True on a person anywhere in the source; it is kept because the
dependent scan reads it). -/
structure Person where
  a_lineno : Int
  a_spouse : Int
  a_age : Int
  a_exprrp : Int
  a_maritl : Int
  a_enrlw : Int
  ffpos : Int
  ftype : Int
  h_type : Int
  h_numper : Int
  h_flag : Bool
  s_flag : Bool
  d_flag : Bool
  wsal_val : Int
  int_val : Int
  div_val : Int
  alm_val : Int
  semp_val : Int
  rtm_val : Int
  rnt_val : Int
  frse_val : Int
  uc_val : Int
  ss_val : Int
  ss_val_y : Int
  benData : BenData
deriving DecidableEq

/-- The age-bracket / credit counters check_age maintains, shared by the
tax-unit record and by output's result record. -/
structure AgeCounters where
  nu05 : Int
  nu13 : Int
  nu18_dep : Int
  nu18 : Int
  n1820 : Int
  n21 : Int
  elderly_dependent : Int
  f2441 : Int
  EIC : Int
  n24 : Int
deriving DecidableEq

/-- All counters zero, as initialised in create. -/
def zeroAC : AgeCounters := ⟨0, 0, 0, 0, 0, 0, 0, 0, 0, 0⟩

/-- A tax unit (the dict built by Returns.create), restricted to the
fields some claim observes.  deps holds the (dep-index, dep-age) slot
pairs dep1../depage1..; benSlots the occupied benefit slots. -/
structure CUnit where
  a_lineno : Int
  xfid : Int
  js : Int
  ms_type : Int
  sp_ptr : Int
  relcode : Int
  ftype : Int
  ifdept : Bool
  t_flag : Bool
  ageh : Int
  ages : Option Int
  agede : Int
  depne : Nat
  deps : List (Int × Option Int)
  ac : AgeCounters
  was : Int
  intst : Int
  dbe : Int
  alimony : Int
  bil : Int
  pensions : Int
  rents : Int
  fil : Int
  ucomp : Int
  socsec : Int
  ssi : Int
  vb : Int
  snap : Int
  mcare : Int
  mcaid : Int
  ss : Int
  tanf : Int
  housing : Int
  wic : Int
  ui : Int
  benSlots : List BenData
deriving DecidableEq

/-- Returns.check_age: bucket one person's age into the counters.
Translated statement by statement from cpsrets.py lines 612-644. -/
def check_age (record : AgeCounters) (age : Int) (dependent : Bool) : AgeCounters :=
  if 0 < age ∧ age < 18 then
    let r := { record with nu18 := record.nu18 + 1 }
    if dependent then
      let r := { r with EIC := r.EIC + 1, nu18_dep := r.nu18_dep + 1 }
      let r :=
        if age ≤ 5 then { r with nu05 := r.nu05 + 1 }
        else if age ≤ 13 then { r with nu13 := r.nu13 + 1, f2441 := r.f2441 + 1 }
        else r
      if 0 < age ∧ age ≤ 17 then { r with n24 := r.n24 + 1 } else r
    else r
  else if 18 ≤ age ∧ age ≤ 20 then { record with n1820 := record.n1820 + 1 }
  else if 21 ≤ age then
    let r := { record with n21 := record.n21 + 1 }
    if 65 ≤ age ∧ dependent then
      { r with elderly_dependent := r.elderly_dependent + 1 }
    else r
  else record

/-- check_age on a possibly missing (np.nan) age: every comparison with
nan is false in Python, so nan falls through every branch unchanged. -/
def checkAgeOpt (record : AgeCounters) (age : Option Int) (dependent : Bool) : AgeCounters :=
  match age with
  | none => record
  | some a => check_age record a dependent

/-- Returns.totincx: total income of a unit (cpsrets.py lines 646-661). -/
def totincx (unit : CUnit) : Int :=
  unit.was + unit.intst + unit.dbe + unit.alimony + unit.bil + unit.pensions +
    unit.rents + unit.fil + unit.ucomp + unit.socsec

/-- Returns.relation: generation offset between a person and the unit's
reference person (cpsrets.py lines 663-709). -/
def relation (person : Person) (record : CUnit) : Int :=
  let ref_person := record.relcode
  let index_person := person.a_exprrp
  let genref : Int :=
    if ref_person = 5 then -1
    else if ref_person = 7 then -2
    else if ref_person = 8 then 1
    else if ref_person = 9 then 0
    else if ref_person = 11 then -1
    else 99
  let genind : Int :=
    if index_person = 5 then -1
    else if index_person = 7 then -2
    else if index_person = 8 then 1
    else if index_person = 9 then 0
    else if index_person = 11 then -1
    else 99
  if genref ≠ 99 ∧ genind ≠ 99 then genind - genref else 99

/-- The aggregate income computed at the top of Returns.ifdept
(cpsrets.py lines 906-909).  Note that the source adds person['int_val']
twice. -/
def ifdeptIncome (person : Person) : Int :=
  person.wsal_val + person.semp_val + person.frse_val + person.uc_val +
    person.ss_val_y + person.rtm_val + person.int_val + person.int_val +
    person.div_val + person.rnt_val + person.alm_val

/-- Test 4 (income test) of Returns.ifdept (cpsrets.py lines 911-916). -/
def ifdeptTest4 (person : Person) (record : CUnit) : Nat :=
  let t : Nat := if ifdeptIncome person ≤ 2500 then 1 else 0
  if (person.a_exprrp = 5 ∨ relation person record = -1) ∧
      (person.a_age ≤ 18 ∨ (person.a_age ≤ 23 ∧ 0 < person.a_enrlw)) then 1
  else t

/-- Test 5 (support test) of Returns.ifdept (cpsrets.py lines 918-924). -/
def ifdeptTest5 (person : Person) (record : CUnit) : Nat :=
  let income := ifdeptIncome person
  let totinc := totincx record
  if 0 < totinc + income then
    if (income : Rat) / ((totinc + income : Int) : Rat) < 1 / 2 then 1 else 0
  else 1

/-- Returns.ifdept: the five-test dependency decision; tests 1-3 are the
constants 1 in the source (cpsrets.py lines 881-929). -/
def ifdept (person : Person) (record : CUnit) : Bool :=
  decide (1 + 1 + 1 + ifdeptTest4 person record + ifdeptTest5 person record = 5)

section FilingThresholds

/-- Filing thresholds set in Returns.__init__ (cpsrets.py lines 27-44). -/
def singleThr : Int := 10150
def single65 : Int := 11700
def hoh : Int := 13050
def hoh65 : Int := 14600
def jointThr : Int := 20300
def joint65one : Int := 21500
def joint65both : Int := 22700
def wage1 : Int := 1000
def wage2 : Int := 250
def wage2nk : Int := 10000
def wage3 : Int := 1
def depExempt : Int := 3950

end FilingThresholds

/-- The nine-stream gross income computed at the top of Returns.filst
(cpsrets.py lines 976-978); unlike totincx it omits socsec. -/
def filstIncome (record : CUnit) : Int :=
  record.was + record.intst + record.dbe + record.alimony + record.bil +
    record.pensions + record.rents + record.fil + record.ucomp

/-- The tail of Returns.filst after the per-status branches fall
through: dependent filer test, the HOH/elderly/income/dependents
selection that returns 0, the negative-income test, default 0
(cpsrets.py lines 1017-1030). -/
def filstTail (record : CUnit) (income : Int) : Int :=
  if record.ifdept then 1
  else if record.js = 3 ∧ 0 < record.agede ∧ 6500 < income ∧ 0 < record.depne then 0
  else if record.bil < 0 ∨ record.fil < 0 ∨ record.rents < 0 then 1
  else 0

/-- Returns.filst: decide whether the unit files a return
(cpsrets.py lines 954-1030).  1 = filer, 0 = non-filer. -/
def filst (record : CUnit) : Int :=
  let dep_exemption : Int := (record.depne : Int) * depExempt
  let income := filstIncome record
  if record.js = 1 then
    if wage1 ≤ record.was then 1
    else
      let amount := if record.agede ≠ 0 then single65 - dep_exemption
                    else singleThr - dep_exemption
      if amount ≤ income then 1 else filstTail record income
  else if record.js = 2 then
    if 0 < record.depne then
      if wage2 ≤ record.was then 1
      else
        let amount := if record.agede = 1 then joint65one - dep_exemption
                      else if record.agede = 2 then joint65both - dep_exemption
                      else jointThr - dep_exemption
        if amount ≤ income then 1 else filstTail record income
    else
      if wage2nk ≤ record.was then 1
      else
        let amount := if record.agede = 1 then joint65one - dep_exemption
                      else if record.agede = 2 then joint65both - dep_exemption
                      else jointThr - dep_exemption
        if amount ≤ income then 1 else filstTail record income
  else if record.js = 3 then
    if wage3 ≤ record.was then 1
    else
      -- the source sets amount = self.hoh without subtracting the
      -- dependent exemption (its own comment questions this), and only
      -- the elderly branch subtracts it
      let amount := if record.agede ≠ 0 then hoh65 - dep_exemption else hoh
      if amount ≤ income then 1 else filstTail record income
  else filstTail record income

/-- Returns.hhstatus (cpsrets.py lines 745-767).  The source's loop
variable shadows the parameter: after `for unit in self.house_units`
the name unit refers to the household's LAST unit, so only that unit
can ever be reclassified, whatever argument was passed.  The function
is therefore modelled as acting on the house_units list alone. -/
def hhstatus (units : List CUnit) : List CUnit :=
  let income : Int := (units.map totincx).sum
  if 0 < income then
    match units.getLast? with
    | none => units
    | some u =>
      if u.js = 1 ∧ (99 : Rat) / 100 < (totincx u : Rat) / (income : Rat) ∧
          u.ifdept = false ∧ 0 < u.depne then
        units.set (units.length - 1) { u with js := 3 }
      else units
  else units

/-- The head-of-household pass as the driver actually performs it
(cpsrets.py line 126): `map(self.hhstatus, self.house_units)` builds a
lazy Python-3 map object that is never consumed, so hhstatus is never
executed and the pass leaves every unit unchanged. -/
def hhstatusPass (units : List CUnit) : List CUnit := units

example : check_age zeroAC 30 false = { zeroAC with n21 := 1 } := by decide
example : check_age zeroAC 10 true =
    { zeroAC with nu18 := 1, EIC := 1, nu18_dep := 1, nu13 := 1, f2441 := 1, n24 := 1 } := by
  decide
example : check_age zeroAC 0 false = zeroAC := by decide

/-! ## The Tax-Unit Constructor (Returns.create) -/

/-- The head-only part of Returns.create (cpsrets.py lines 151-263
restricted to observed fields): all income fields are the head's,
ms_type is 2 for marital codes 1-3, the spouse-age slot ages is np.nan,
js is 1 for ms_type 1 and 2 otherwise (the inner h_type refinement of
the single branch reassigns js = 1 and is a no-op), the counters
receive the head's age, and benefit slot 1 is the head's data with
slot 2 reserved (zeros) for a possible spouse. -/
def baseUnit (record : Person) : CUnit :=
  let ms := record.a_maritl
  let ms_type : Int := if ms = 1 ∨ ms = 2 ∨ ms = 3 then 2 else 1
  { a_lineno := record.a_lineno
    xfid := record.ffpos
    js := if ms_type = 1 then 1 else 2
    ms_type := ms_type
    sp_ptr := record.a_spouse
    relcode := record.a_exprrp
    ftype := record.ftype
    ifdept := record.d_flag
    t_flag := false
    ageh := record.a_age
    ages := none
    agede := if 65 ≤ record.a_age then 1 else 0
    depne := 0
    deps := []
    ac := check_age zeroAC record.a_age false
    was := record.wsal_val
    intst := record.int_val
    dbe := record.div_val
    alimony := record.alm_val
    bil := record.semp_val
    pensions := record.rtm_val
    rents := record.rnt_val
    fil := record.frse_val
    ucomp := record.uc_val
    socsec := record.ss_val
    ssi := record.benData.ssi.2
    vb := record.benData.vb.2
    snap := record.benData.snap.2
    mcare := record.benData.mcare.2
    mcaid := record.benData.mcaid.2
    ss := record.benData.ss.2
    tanf := record.benData.tanf.2
    housing := record.benData.housing.2
    wic := record.benData.wic.2
    ui := record.benData.ui.2
    benSlots := [record.benData, zeroBen] }

/-- The spouse fold of Returns.create (cpsrets.py lines 284-325 and
add_benefit at line 583): spouse incomes are added to the combined
totals (socsec gains the spouse's ss_val_y), the spouse age feeds agede
and the counters, and benefit slot 2 is overwritten with the spouse's
data. -/
def spouseFold (u : CUnit) (spouse : Person) : CUnit :=
  { u with
    ages := some spouse.a_age
    agede := u.agede + (if 65 ≤ spouse.a_age then 1 else 0)
    ac := check_age u.ac spouse.a_age false
    was := u.was + spouse.wsal_val
    intst := u.intst + spouse.int_val
    dbe := u.dbe + spouse.div_val
    alimony := u.alimony + spouse.alm_val
    bil := u.bil + spouse.semp_val
    pensions := u.pensions + spouse.rtm_val
    rents := u.rents + spouse.rnt_val
    fil := u.fil + spouse.frse_val
    ucomp := u.ucomp + spouse.uc_val
    socsec := u.socsec + spouse.ss_val_y
    ssi := u.ssi + spouse.benData.ssi.2
    vb := u.vb + spouse.benData.vb.2
    snap := u.snap + spouse.benData.snap.2
    mcare := u.mcare + spouse.benData.mcare.2
    mcaid := u.mcaid + spouse.benData.mcaid.2
    ss := u.ss + spouse.benData.ss.2
    tanf := u.tanf + spouse.benData.tanf.2
    housing := u.housing + spouse.benData.housing.2
    wic := u.wic + spouse.benData.wic.2
    ui := u.ui + spouse.benData.ui.2
    benSlots := u.benSlots.set 1 spouse.benData }

/-- Returns.addept (cpsrets.py lines 931-952): attach person (at house
index p_index) as the next dependent of record, bucket their age with
the dependent flag set, and append their benefit data at the next free
benefit slot. -/
def addept (person : Person) (record : CUnit) (p_index : Nat) : CUnit :=
  { record with
    depne := record.depne + 1
    deps := record.deps ++ [((p_index : Int), some person.a_age)]
    ac := check_age record.ac person.a_age true
    ssi := record.ssi + person.benData.ssi.2
    vb := record.vb + person.benData.vb.2
    snap := record.snap + person.benData.snap.2
    mcare := record.mcare + person.benData.mcare.2
    mcaid := record.mcaid + person.benData.mcaid.2
    ss := record.ss + person.benData.ss.2
    tanf := record.tanf + person.benData.tanf.2
    housing := record.housing + person.benData.housing.2
    wic := record.wic + person.benData.wic.2
    ui := record.ui + person.benData.ui.2
    benSlots := record.benSlots ++ [person.benData] }

/-- The dependent scan at the end of Returns.create (cpsrets.py lines
589-607): every household position other than the reference person's is
examined; a candidate must share the unit's family id and carry no
head/spouse/dependent flag; ifdept's verdict is written back to the
person's d_flag (also when false, a no-op), and successful candidates
are attached with addept.  house.index(person) is position-based
because list.index finds the person object itself by identity. -/
def depScan (ri : Nat) : List Nat → CUnit × List Person → CUnit × List Person
  | [], s => s
  | i :: rest, s =>
    match (s.2)[i]? with
    | none => depScan ri rest s
    | some p =>
      if i ≠ ri ∧ p.ffpos = s.1.xfid ∧ p.d_flag = false ∧ p.s_flag = false ∧
          p.h_flag = false then
        if ifdept p s.1 then
          depScan ri rest (addept p s.1 i, s.2.set i { p with d_flag := ifdept p s.1 })
        else depScan ri rest (s.1, s.2.set i { p with d_flag := ifdept p s.1 })
      else depScan ri rest s

/-- The spouse-locating step of Returns.create (cpsrets.py lines
274-325): when the head is married (ms_type 2) with a non-zero spouse
pointer, the household is scanned for a member whose line number
equals the head's spouse pointer AND whose own spouse pointer points
back; the first such member is folded in and flagged s_flag.  When NO
member matches, the source's local variable spouse is never bound and
the very next statement raises UnboundLocalError - modelled by the
none result. -/
def spouseStep (h : List Person) (record : Person) : Option (CUnit × List Person) :=
  if (baseUnit record).ms_type = 2 ∧ (baseUnit record).sp_ptr ≠ 0 then
    match h.findIdx? (fun p =>
        p.a_lineno == record.a_spouse && p.a_spouse == record.a_lineno) with
    | none => none
    | some si =>
      match h[si]? with
      | none => none
      | some spouse =>
        some (spouseFold (baseUnit record) spouse,
          h.set si { spouse with s_flag := true })
  else some (baseUnit record, h)

/-- The body of Returns.create once the reference record is fixed: the
spouse step, then the dependent scan over the whole household, then
the final t_flag = True marking the unit as a surviving tax unit. -/
def createBody (h : List Person) (ri : Nat) (record : Person) :
    Option (CUnit × List Person) :=
  match spouseStep h record with
  | none => none
  | some s1 =>
    some ({ (depScan ri (List.range s1.2.length) s1).1 with t_flag := true },
      (depScan ri (List.range s1.2.length) s1).2)

/-- Returns.create (cpsrets.py lines 139-610) for the head at house
position ri. -/
def create (h : List Person) (ri : Nat) : Option (CUnit × List Person) :=
  match h[ri]? with
  | none => none
  | some record => createBody h ri record

/-! ## The Household Partitioner's group-quarters branch -/

/-- The driver's test for a group-quarters household (cpsrets.py line
96): the first record's h_type equals 9. -/
def isGroupQuarters (house : List Person) : Bool :=
  match house.head? with
  | none => false
  | some head => head.h_type == 9

/-- Worker for processGroup: construct one unit per listed house
position, threading the flag mutations through. -/
def processGroupAux : List Nat → List CUnit → List Person → Option (List CUnit × List Person)
  | [], us, h => some (us, h)
  | i :: rest, us, h =>
    match create h i with
    | none => none
    | some (u, h1) => processGroupAux rest (us ++ [u]) h1

/-- The group-quarters branch of Returns.computation (cpsrets.py lines
102-104): one call to create per person of the household, in order,
with that person as the reference record. -/
def processGroup (house : List Person) : Option (List CUnit × List Person) :=
  processGroupAux (List.range house.length) [] house

/-! ## The Unit Merge (Returns.convert) and the Reconciliation Pass -/

/-- The dependent-slot block transferred from source to target by
Returns.convert (cpsrets.py lines 828-837).  The loop writes
target.dep(iybgin+n) = source.dep(n) but, between read and read, also
executes self.house_units[ix][dep] = 0, zeroing the SOURCE's key
dep(iybgin+n); a later iteration n > iybgin therefore reads a zero
instead of the original index.  The ages (depage keys) are never
zeroed and transfer intact. -/
def transferredDeps (ixDeps : List (Int × Option Int)) (iybgin : Nat) :
    List (Int × Option Int) :=
  ixDeps.mapIdx (fun n da => (if n + 1 ≤ iybgin then da.1 else 0, da.2))

/-- The source unit after Returns.convert (cpsrets.py lines 801-804):
flagged as now-a-dependent, its dependent count zeroed.  (Its counters,
benefit totals and benefit slots are NOT cleared; the stray zero-writes
into its dep keys are unobservable because its depne is 0 and it is no
longer a surviving unit.) -/
def mergeSource (ux : CUnit) : CUnit :=
  { ux with ifdept := true, depne := 0 }

/-- The target unit after Returns.convert (cpsrets.py lines 801-879)
when the source sits at house-unit index ix: the source head (and, for
a joint source, the stored spouse pointer with the nan spouse-age slot)
occupies the next dependent slot(s), the source's own dependent slots
follow (with the zero-clobbering of transferredDeps), every age-bracket
and credit counter and every benefit running total is added in, and the
source's occupied benefit slots are appended. -/
def mergeAC (y x : AgeCounters) : AgeCounters :=
  { nu05 := y.nu05 + x.nu05
    nu13 := y.nu13 + x.nu13
    nu18_dep := y.nu18_dep + x.nu18_dep
    nu18 := y.nu18 + x.nu18
    n1820 := y.n1820 + x.n1820
    n21 := y.n21 + x.n21
    elderly_dependent := y.elderly_dependent + x.elderly_dependent
    f2441 := y.f2441 + x.f2441
    EIC := y.EIC + x.EIC
    n24 := y.n24 + x.n24 }

def mergeTarget (ux uy : CUnit) (ix : Nat) : CUnit :=
  if ux.js = 2 then
    { uy with
      depne := uy.depne + ux.depne + 2
      deps := uy.deps ++ [((ix : Int), some ux.ageh), (ux.sp_ptr, ux.ages)] ++
        transferredDeps (ux.deps.take ux.depne) (uy.depne + 2)
      ac := mergeAC uy.ac ux.ac
      ssi := uy.ssi + ux.ssi
      vb := uy.vb + ux.vb
      snap := uy.snap + ux.snap
      mcare := uy.mcare + ux.mcare
      mcaid := uy.mcaid + ux.mcaid
      ss := uy.ss + ux.ss
      tanf := uy.tanf + ux.tanf
      housing := uy.housing + ux.housing
      wic := uy.wic + ux.wic
      ui := uy.ui + ux.ui
      benSlots := uy.benSlots ++ ux.benSlots }
  else
    { uy with
      depne := uy.depne + ux.depne + 1
      deps := uy.deps ++ [((ix : Int), some ux.ageh)] ++
        transferredDeps (ux.deps.take ux.depne) (uy.depne + 1)
      ac := mergeAC uy.ac ux.ac
      ssi := uy.ssi + ux.ssi
      vb := uy.vb + ux.vb
      snap := uy.snap + ux.snap
      mcare := uy.mcare + ux.mcare
      mcaid := uy.mcaid + ux.mcaid
      ss := uy.ss + ux.ss
      tanf := uy.tanf + ux.tanf
      housing := uy.housing + ux.housing
      wic := uy.wic + ux.wic
      ui := uy.ui + ux.ui
      benSlots := uy.benSlots ++ ux.benSlots }

/-- Returns.convert (cpsrets.py lines 788-879): turn house-unit ix into
a dependent filer of house-unit iy. -/
def convert (units : List CUnit) (ix iy : Nat) : List CUnit :=
  match units[ix]?, units[iy]? with
  | some ux, some uy =>
    (units.set ix (mergeSource ux)).set iy (mergeTarget ux uy ix)
  | _, _ => units

/-- The t_flag clearing Returns.search performs on a unit immediately
before calling convert on it (cpsrets.py lines 1064, 1067, 1070). -/
def setTFlagFalse (units : List CUnit) (ix : Nat) : List CUnit :=
  match units[ix]? with
  | none => units
  | some u => units.set ix { u with t_flag := false }

/-- One fold as Returns.search performs it: clear the source's t_flag,
then convert it into the target. -/
def foldOp (units : List CUnit) (ix iy : Nat) : List CUnit :=
  convert (setTFlagFalse units ix) ix iy

/-- The initial value of highest in Returns.search (cpsrets.py line
1042); the float literal -9.9e32 denotes exactly the integer
-99*10^31. -/
def searchInit : Int := -(99 * 10 ^ 31)

/-- The argmax loop of Returns.search (cpsrets.py lines 1042-1048):
totinc >= highest updates both highest and idxhigh, so on ties the
LAST unit with equal-or-greater income wins.  self.house_units.index
returns the iterated unit's own position (list.index compares with an
identity shortcut and the units are distinct dict objects). -/
def searchMaxAux : List CUnit → Nat → Int → Nat → Int × Nat
  | [], _, hi, idx => (hi, idx)
  | u :: rest, i, hi, idx =>
    if hi ≤ totincx u then searchMaxAux rest (i + 1) (totincx u) i
    else searchMaxAux rest (i + 1) hi idx

/-- highest and idxhigh as computed by Returns.search. -/
def searchMax (units : List CUnit) : Int × Nat :=
  searchMaxAux units 0 searchInit 0

/-- The family-type branch of Returns.search's fold loop (cpsrets.py
lines 1061-1068): a unit of family type 1, 3 or 5 is folded when its
total income is at most zero, or positive but at most 3000. -/
def famStep (idx : Nat) (u : CUnit) (s : List CUnit × List Nat) (ix : Nat) :
    List CUnit × List Nat :=
  if u.ftype = 1 ∨ u.ftype = 3 ∨ u.ftype = 5 then
    if totincx u ≤ 0 then (foldOp s.1 ix idx, s.2 ++ [ix])
    else if totincx u ≤ 3000 then (foldOp s.1 ix idx, s.2 ++ [ix])
    else s
  else s

/-- The body of Returns.search's fold loop for one index ix (cpsrets.py
lines 1051-1071), threading the unit list and a log of the indices
convert was called on.  All guards are read from the unit before any
fold of this iteration, exactly as the source reads idxjs, idxdepf,
idxrelc, idxfamt once at the top of the loop body; note that a unit
with a {1,3,5} family type, qualifying income AND relcode 11 is folded
TWICE (once by famStep, once by the relcode branch). -/
def searchIter1 (hi : Int) (idx : Nat) (s : List CUnit × List Nat) (ix : Nat) :
    List CUnit × List Nat :=
  match s.1[ix]? with
  | none => s
  | some u =>
    if ix ≠ idx ∧ u.ifdept = false ∧ 0 < hi ∧ u.js ≠ 2 then
      if u.relcode = 11 then
        (foldOp (famStep idx u s ix).1 ix idx, (famStep idx u s ix).2 ++ [ix])
      else famStep idx u s ix
    else s

/-- Returns.search (cpsrets.py lines 1032-1071).  Returns the updated
house-unit list together with the log of source indices folded (in
order); the driver only calls it with at least two units, so the
out-of-range arm is unreachable there. -/
def search (units : List CUnit) : List CUnit × List Nat :=
  match units[(searchMax units).2]? with
  | none => (units, [])
  | some top =>
    if top.ifdept then (units, [])
    else (List.range units.length).foldl
      (searchIter1 (searchMax units).1 (searchMax units).2) (units, [])

/-! ## The Output Reconciler (Returns.output) -/

/-- Python list indexing house[dindex]: non-negative indices are plain
lookups, negative indices wrap once from the end, anything else raises
IndexError (none). -/
def pyGet (house : List Person) (i : Int) : Option Person :=
  if 0 ≤ i then house[i.toNat]?
  else if 0 ≤ i + house.length then house[(i + house.length).toNat]?
  else none

/-- The output record, restricted to the fields some claim observes
(the straight copies of unit fields, the xxopar/xxoodep/xxocah tallies,
oldest/youngest and zdepin are not referenced by any claim and are
omitted). -/
structure ORecord where
  js : Int
  depne : Nat
  xxtot : Int
  ac : AgeCounters
  income : Int
  filst : Int
deriving DecidableEq

/-- The dependent loop of Returns.output (cpsrets.py lines 1145-1159)
restricted to its observable effect: each stored dependent index is
looked up in the household (an out-of-range index raises, none), and
when the error flag was set the person count is incremented and the
dependent's age re-bucketed with the dependent flag set. -/
def outputDepLoop (house : List Person) (eflag : Bool) :
    List (Int × Option Int) → Int × AgeCounters → Option (Int × AgeCounters)
  | [], st => some st
  | (dindex, _) :: rest, (xxtot, ac) =>
    match pyGet house dindex with
    | none => none
    | some p =>
      if eflag then outputDepLoop house eflag rest (xxtot + 1, check_age ac p.a_age true)
      else outputDepLoop house eflag rest (xxtot, ac)

/-- Returns.output (cpsrets.py lines 1073-1197) restricted to the
observable fields.  txpye is 2 when js == 1 and 1 otherwise, exactly as
the source writes it; the reset branch zeroes the person count and the
derived counters EXCEPT elderly_dependent, for which the source line
record['elderly_dependent'] - 0. is an expression statement with no
effect. -/
def output (unit : CUnit) (house : List Person) : Option ORecord := do
  let depsUsed ←
    if unit.depne ≤ unit.deps.length then some (unit.deps.take unit.depne) else none
  let txpye : Int := if unit.js = 1 then 2 else 1
  let xxtot0 : Int := txpye + unit.depne
  let nsums : Int := unit.ac.nu18 + unit.ac.n1820 + unit.ac.n21
  let eflag : Bool := decide (xxtot0 ≠ nsums ∨ unit.ac.nu18 < unit.ac.n24)
  let st0 : Int × AgeCounters :=
    if eflag then
      let ac1 : AgeCounters :=
        { nu05 := 0, nu13 := 0, nu18_dep := 0, nu18 := 0, n1820 := 0, n21 := 0
          elderly_dependent := unit.ac.elderly_dependent
          f2441 := 0, EIC := 0, n24 := 0 }
      let ac2 := check_age ac1 unit.ageh false
      if unit.js = 2 then (1 + 1, checkAgeOpt ac2 unit.ages false)
      else (1, ac2)
    else (xxtot0, unit.ac)
  let st ← outputDepLoop house eflag depsUsed st0
  some { js := unit.js
         depne := unit.depne
         xxtot := st.1
         ac := st.2
         income := totincx unit
         filst := filst unit }

/-! ## Concrete records used by the claim-level theorems -/

/-- A person record with every field zeroed, used as the base of the
concrete households below. -/
def defaultPerson : Person :=
  { a_lineno := 0, a_spouse := 0, a_age := 0, a_exprrp := 0, a_maritl := 0,
    a_enrlw := 0, ffpos := 0, ftype := 0, h_type := 0, h_numper := 0,
    h_flag := false, s_flag := false, d_flag := false,
    wsal_val := 0, int_val := 0, div_val := 0, alm_val := 0, semp_val := 0,
    rtm_val := 0, rnt_val := 0, frse_val := 0, uc_val := 0, ss_val := 0,
    ss_val_y := 0, benData := zeroBen }

/-- A fresh single-filer unit with every aggregate zeroed (the shape a
childless, incomeless head would produce), used as the base of the
concrete units below. -/
def defaultUnit : CUnit :=
  { a_lineno := 0, xfid := 0, js := 1, ms_type := 1, sp_ptr := 0, relcode := 0,
    ftype := 0, ifdept := false, t_flag := true, ageh := 0, ages := none,
    agede := 0, depne := 0, deps := [], ac := zeroAC,
    was := 0, intst := 0, dbe := 0, alimony := 0, bil := 0, pensions := 0,
    rents := 0, fil := 0, ucomp := 0, socsec := 0,
    ssi := 0, vb := 0, snap := 0, mcare := 0, mcaid := 0, ss := 0, tanf := 0,
    housing := 0, wic := 0, ui := 0, benSlots := [zeroBen, zeroBen] }

/-- C1's household: a married couple with mutual spouse pointers, head
aged 30, spouse age 0 (the missing-age sentinel), no other members. -/
def c1House : List Person :=
  [{ defaultPerson with
      a_lineno := 1
      a_spouse := 2
      a_maritl := 1
      a_age := 30
      ffpos := 1
      h_type := 1 },
   { defaultPerson with
      a_lineno := 2
      a_spouse := 1
      a_maritl := 1
      a_age := 0
      ffpos := 1
      h_type := 1 }]

/-- C2's household: a head with marital code 1 and spouse pointer 2,
and a second member at line 2 whose own spouse pointer is 0, so the
mutual-match test fails for every member. -/
def c2House : List Person :=
  [{ defaultPerson with
      a_lineno := 1
      a_spouse := 2
      a_maritl := 1
      a_age := 40
      ffpos := 1 },
   { defaultPerson with
      a_lineno := 2
      a_spouse := 0
      a_maritl := 7
      a_age := 35
      ffpos := 1 }]

/-- C3's first unit: single, not a dependent, one dependent attached,
income 1000 of the household's 1001 total (a share above 99 percent). -/
def c3UnitA : CUnit :=
  { defaultUnit with js := 1, depne := 1, deps := [(1, some 5)], was := 1000 }

/-- C3's second (and last) unit: a joint filer with income 1. -/
def c3UnitB : CUnit := { defaultUnit with js := 2, ms_type := 2, was := 1 }

/-- C5's target unit: the household's top earner, no dependents. -/
def c5Target : CUnit := { defaultUnit with was := 100 }

/-- C5's source unit: no dependents, one person counted in n21, and an
SSI benefit total of 5. -/
def c5Source : CUnit := { defaultUnit with ac := { zeroAC with n21 := 1 }, ssi := 5 }

/-- C6's person: interest income 1300 and nothing else, age 30,
relationship code 9 (a non-child, generation offset 0). -/
def c6Person : Person := { defaultPerson with int_val := 1300, a_age := 30, a_exprrp := 9 }

/-- C6's reference unit: relationship code 9, wages 50000. -/
def c6Record : CUnit := { defaultUnit with relcode := 9, was := 50000 }

/-- C7's unit: head of household, elderly, two dependents, business
income -5000 and pension income 11600, hence gross income 6600 - just
above the carve-out's 6500 and below its elderly threshold
14600 - 2 * 3950 = 6700. -/
def c7Record : CUnit :=
  { defaultUnit with
    js := 3
    agede := 1
    depne := 2
    deps := [(0, some 4), (1, some 6)]
    bil := -5000
    pensions := 11600 }

/-- C8's unit: single head aged 40 with no dependents whose counters
went stale (n21 = 5, elderly_dependent = 3), so output's
reset-and-recompute path fires. -/
def c8Unit : CUnit :=
  { defaultUnit with ageh := 40, ac := { zeroAC with n21 := 5, elderly_dependent := 3 } }

/-- C9's group-quarters household (h_type 9): two members with mutual
spouse pointers and married marital codes, wages 40000 and 30000. -/
def c9House : List Person :=
  [{ defaultPerson with
      a_lineno := 1
      a_spouse := 2
      a_maritl := 1
      a_age := 30
      ffpos := 1
      h_type := 9
      wsal_val := 40000 },
   { defaultPerson with
      a_lineno := 2
      a_spouse := 1
      a_maritl := 1
      a_age := 25
      ffpos := 1
      h_type := 9
      wsal_val := 30000 }]

/-- C10's top unit: income 5000, no dependents. -/
def c10Top : CUnit := { defaultUnit with was := 5000 }

/-- C10's source unit: family type 1, relationship code 11, total
income 0, one dependent (house index 7, age 10) with the matching
counters, SSI total 4. -/
def c10Source : CUnit :=
  { defaultUnit with
    ftype := 1
    relcode := 11
    depne := 1
    deps := [(7, some 10)]
    ac := { zeroAC with nu18 := 1, n21 := 1, n24 := 1, EIC := 1, nu18_dep := 1 }
    ssi := 4 }

/-- Modelled from the claim's words (C6), for comparison with the
source's ifdeptTest4: the person's aggregate income with each of the
ten streams counted once. -/
def claimC6IncomeOnce (person : Person) : Int :=
  person.wsal_val + person.semp_val + person.frse_val + person.uc_val +
    person.ss_val_y + person.rtm_val + person.int_val +
    person.div_val + person.rnt_val + person.alm_val

/-- Modelled from the claim's words (C6): the income test passes
exactly when the once-counted aggregate income is at most 2500, or the
person is a qualifying child (relationship code 5 or generation offset
-1) under age 19, or under age 24 and enrolled in school. -/
def claimC6IncomeTest (person : Person) (record : CUnit) : Bool :=
  decide (claimC6IncomeOnce person ≤ 2500 ∨
    ((person.a_exprrp = 5 ∨ relation person record = -1) ∧
      (person.a_age < 19 ∨ (person.a_age < 24 ∧ 0 < person.a_enrlw))))

/-! ## Claim theorems: the evaluation-style results -/

/-- C1: FAILS on the code.  The Output Reconciler computes the expected
person count as txpye + depne with txpye = 2 when js == 1 and 1
otherwise - the inversion of the intended 1-per-filer count - so the
claimed invariant xxtot = filer-count + dependent-count only survives
when the reset path fires and rebuilds xxtot.  For the joint unit built
from c1House (spouse age 0, the missing-age sentinel), nsums is 1,
which coincidentally equals the inverted initial xxtot, the reset is
skipped, and the emitted unit has js = 2, depne = 0 but xxtot = 1
instead of the required 2. -/
theorem c1_xxtot_joint_missing_spouse_age :
    ((create c1House 0).bind fun s => output s.1 s.2).map
      (fun r => (r.js, (r.depne : Int), r.xxtot)) = some (2, 0, 1) ∧
    (1 : Int) ≠ 2 + 0 := by
  exact ⟨by decide, by decide⟩

/-- C2: counterexample.  For c2House the head has a joint marital code
and a non-zero spouse pointer, no member mutually points back, and
create does NOT proceed as effectively single: the spouse lookup falls
through without binding the spouse variable and the construction
aborts (none models the UnboundLocalError raised at
unit['ages'] = spouse['a_age']). -/
theorem c2_no_mutual_match_counterexample :
    create c2House 0 = none ∧
    (c2House[0]?).map (fun p => (p.a_maritl, p.a_spouse)) = some (1, 2) := by
  exact ⟨by decide, by decide⟩

/-- C3: FAILS on the code (code bug).  The driver's head-of-household
pass is map(self.hhstatus, self.house_units), a lazy Python-3 map
object that is never consumed, so no unit is ever reclassified; and
hhstatus itself shadows its parameter with its loop variable, so even
an eager call could only ever touch the household's LAST unit (here a
joint filer that fails the js == 1 test).  For the household
[c3UnitA, c3UnitB], unit A is single, not a dependent, has a
dependent, and earns 1000 of the 1001 household total (share above 99
percent), yet both the driver's pass and an eager hhstatus call leave
its filing status at 1. -/
theorem c3_hhstatus_never_reclassifies :
    hhstatusPass [c3UnitA, c3UnitB] = [c3UnitA, c3UnitB] ∧
    hhstatus [c3UnitA, c3UnitB] = [c3UnitA, c3UnitB] ∧
    c3UnitA.js = 1 ∧ c3UnitA.ifdept = false ∧ 0 < c3UnitA.depne ∧
    (99 : Rat) / 100 <
      (totincx c3UnitA : Rat) / (((([c3UnitA, c3UnitB]).map totincx).sum : Int) : Rat) := by
  have hsum : (([c3UnitA, c3UnitB]).map totincx).sum = 1001 := by decide
  have hA : totincx c3UnitA = 1000 := by decide
  refine ⟨rfl, by decide, by decide, by decide, by decide, ?_⟩
  rw [hA, hsum]
  norm_num

/-- C5: counterexample.  Folding c5Source into c5Target (exactly as
Returns.search does: t_flag cleared, then convert) does NOT preserve
the across-units sums: the dependent-count sum rises from 0 to 1 (the
source head becomes a new dependent of the target), and because convert
never clears the source's own counters and benefit totals, the n21 sum
doubles from 1 to 2 and the SSI sum from 5 to 10. -/
theorem c5_merge_conservation_counterexample :
    ¬(((foldOp [c5Target, c5Source] 1 0).map (fun u => (u.depne : Int))).sum =
        (([c5Target, c5Source]).map (fun u => (u.depne : Int))).sum ∧
      ((foldOp [c5Target, c5Source] 1 0).map (fun u => u.ac.n21)).sum =
        (([c5Target, c5Source]).map (fun u => u.ac.n21)).sum ∧
      ((foldOp [c5Target, c5Source] 1 0).map (fun u => u.ssi)).sum =
        (([c5Target, c5Source]).map (fun u => u.ssi)).sum) := by
  decide

/-- C6: counterexample.  ifdept's income test counts int_val twice, so
c6Person (interest 1300, everything else 0, age 30, not a qualifying
child) fails the source's test (aggregate 2600 > 2500) although the
claim's once-counted aggregate is 1300 <= 2500 and predicts a pass. -/
theorem c6_income_test_counterexample :
    ifdeptTest4 c6Person c6Record = 0 ∧
    claimC6IncomeTest c6Person c6Record = true := by
  exact ⟨by decide, by decide⟩

/-- C6 (amended): the income test passes exactly when the aggregate
income WITH INTEREST COUNTED TWICE is at most 2500, or the person is a
qualifying child (relationship code 5 or generation offset -1) under
age 19, or under age 24 and enrolled in school. -/
theorem c6_income_test_amended (p : Person) (r : CUnit) :
    ifdeptTest4 p r = 1 ↔
      (ifdeptIncome p ≤ 2500 ∨
        ((p.a_exprrp = 5 ∨ relation p r = -1) ∧
          (p.a_age < 19 ∨ (p.a_age < 24 ∧ 0 < p.a_enrlw)))) := by
  have hage : (p.a_age ≤ 18 ∨ (p.a_age ≤ 23 ∧ 0 < p.a_enrlw)) ↔
      (p.a_age < 19 ∨ (p.a_age < 24 ∧ 0 < p.a_enrlw)) := by omega
  unfold ifdeptTest4
  split_ifs with h1 h2 <;> simp_all

/-- C7: counterexample.  c7Record has negative business income
(bil = -5000) yet filst returns 0: the unit is head-of-household with
an elderly filer, gross income 6600 > 6500 and dependents, and that
carve-out returns non-filer BEFORE the negative-income test is ever
reached. -/
theorem c7_negative_income_counterexample :
    c7Record.bil < 0 ∧ filst c7Record = 0 := by
  exact ⟨by decide, by decide⟩

/-- C7 (amended): negative business, farm or rental income forces
filer status in every case EXCEPT when the head-of-household / elderly
/ income above 6500 / has-dependents carve-out applies, which returns
non-filer before the negative-income test is consulted. -/
theorem c7_negative_income_amended (r : CUnit)
    (hneg : r.bil < 0 ∨ r.fil < 0 ∨ r.rents < 0)
    (hcarve : ¬(r.js = 3 ∧ 0 < r.agede ∧ 6500 < filstIncome r ∧ 0 < r.depne)) :
    filst r = 1 := by
  have htail : filstTail r (filstIncome r) = 1 := by
    unfold filstTail
    split_ifs with h1 <;> rfl
  simp only [filst]
  split_ifs <;> first | rfl | exact htail

/-- C7 (amended) witness: a single filer with business income -100 and
no other income is classified a filer by the negative-income test. -/
theorem c7_negative_income_amended_witness :
    filst { defaultUnit with bil := -100 } = 1 :=
  c7_negative_income_amended { defaultUnit with bil := -100 } (by decide) (by decide)

/-- C8: FAILS on the code (code bug).  In output's reset path the
source line record['elderly_dependent'] - 0. is an expression
statement, not an assignment, so the elderly-dependent counter is the
one derived counter that is NOT reset before the recompute.  For
c8Unit the reset path fires (initial xxtot 2 differs from nsums 5) and
the emitted record keeps the stale elderly_dependent = 3 next to the
recomputed xxtot = 1, n21 = 1; the claimed reset-and-recompute would
leave it 0. -/
theorem c8_elderly_dependent_not_reset :
    (output c8Unit []).map
      (fun r => (r.ac.elderly_dependent, r.xxtot, r.ac.n21, r.ac.nu18)) =
      some (3, 1, 1, 0) ∧ (3 : Int) ≠ 0 := by
  exact ⟨by decide, by decide⟩

/-- C9: counterexample.  For the group-quarters household c9House the
driver does build one unit per person with each person as reference
head (line numbers 1 and 2), but the units are produced by the general
constructor, which DOES perform spousal folding: each unit's combined
wage is 70000 (both members' wages folded in), each carries a folded
spouse age, and both members end up s_flagged - refuting the claim
that no spousal folding is performed. -/
theorem c9_group_quarters_counterexample :
    (processGroup c9House).map
      (fun s => (s.1.map (fun u => (u.a_lineno, u.was, u.ages)),
                 s.2.map (fun p => p.s_flag))) =
      some ([(1, 70000, some 25), (2, 70000, some 30)], [true, true]) ∧
    (c9House.map (fun p => p.wsal_val)) = [40000, 30000] := by
  exact ⟨by decide, by decide⟩

/-- C10: counterexample.  In search on [c10Top, c10Source] the source
unit (family type 1, income 0, relcode 11) is indeed converted twice
(fold log [1, 1]), but its dependent count is NOT added twice: the
first convert zeroes the source's depne, so the target ends with
depne = 3 (= 0 + (1 + 1) + (0 + 1)), not the 4 the doubled-addition
reading of the claim predicts. -/
theorem c10_double_convert_counterexample :
    (search [c10Top, c10Source]).2 = [1, 1] ∧
    ((search [c10Top, c10Source]).1[0]?).map (fun u => (u.depne : Int)) = some 3 ∧
    (3 : Int) ≠ (c10Top.depne : Int) + 2 * ((c10Source.depne : Int) + 1) := by
  exact ⟨by decide, by decide, by decide⟩

/-- C2 (amended): when the head is married (ms_type 2) with a non-zero
spouse pointer and NO household member mutually points back, the
Tax-Unit Constructor does not proceed as effectively single: the
spouse lookup leaves the spouse variable unbound and the construction
raises (create returns none), producing no unit at all. -/
theorem c2_no_mutual_match_raises (h : List Person) (ri : Nat) (record : Person)
    (hget : h[ri]? = some record)
    (hms : record.a_maritl = 1 ∨ record.a_maritl = 2 ∨ record.a_maritl = 3)
    (hsp : record.a_spouse ≠ 0)
    (hnomatch : ∀ p ∈ h, ¬(p.a_lineno = record.a_spouse ∧ p.a_spouse = record.a_lineno)) :
    create h ri = none := by
  have hfind : h.findIdx? (fun p =>
      p.a_lineno == record.a_spouse && p.a_spouse == record.a_lineno) = none := by
    rw [List.findIdx?_eq_none_iff]
    intro p hp
    have hnp := hnomatch p hp
    simp only [Bool.and_eq_false_iff, beq_eq_false_iff_ne, ne_eq]
    by_cases h1 : p.a_lineno = record.a_spouse
    · exact Or.inr fun h2 => hnp ⟨h1, h2⟩
    · exact Or.inl h1
  have hms2 : (baseUnit record).ms_type = 2 := by
    simp only [baseUnit]
    rw [if_pos hms]
  have hsp2 : (baseUnit record).sp_ptr ≠ 0 := hsp
  have hs : spouseStep h record = none := by
    unfold spouseStep
    rw [if_pos ⟨hms2, hsp2⟩, hfind]
  simp only [create, hget, createBody, hs]

/-- C2 (amended) witness: the concrete household c2House instantiates
the amended claim's hypotheses and create indeed returns none. -/
theorem c2_no_mutual_match_raises_witness :
    create c2House 0 = none :=
  c2_no_mutual_match_raises c2House 0
    { defaultPerson with
      a_lineno := 1
      a_spouse := 2
      a_maritl := 1
      a_age := 40
      ffpos := 1 }
    (by decide) (by decide) (by decide) (by decide)

/-! ## Sums over surviving units, for the merge-conservation claim -/

/-- The sum of f over the units still flagged as surviving tax units. -/
def survSum {M : Type} [AddCommMonoid M] (f : CUnit → M) (units : List CUnit) : M :=
  ((units.filter (fun u => u.t_flag)).map f).sum

/-- The ten age-bracket / credit counters of a unit, as one tuple. -/
def ageTup (u : CUnit) :
    Int × Int × Int × Int × Int × Int × Int × Int × Int × Int :=
  (u.ac.nu05, u.ac.nu13, u.ac.nu18_dep, u.ac.nu18, u.ac.n1820, u.ac.n21,
    u.ac.elderly_dependent, u.ac.f2441, u.ac.EIC, u.ac.n24)

/-- The ten benefit running totals of a unit, as one tuple. -/
def benTup (u : CUnit) :
    Int × Int × Int × Int × Int × Int × Int × Int × Int × Int :=
  (u.ssi, u.vb, u.snap, u.mcare, u.mcaid, u.ss, u.tanf, u.housing, u.wic, u.ui)

/-- The dependent count of a unit, as an integer. -/
def depneZ (u : CUnit) : Int := u.depne

theorem survSum_cons {M : Type} [AddCommMonoid M] (f : CUnit → M) (a : CUnit)
    (l : List CUnit) :
    survSum f (a :: l) = (if a.t_flag then f a else 0) + survSum f l := by
  by_cases h : a.t_flag <;> simp [survSum, List.filter_cons, h]

theorem survSum_set {M : Type} [AddCommMonoid M] (f : CUnit → M) :
    ∀ (l : List CUnit) (i : Nat) (p x : CUnit), l[i]? = some p →
      survSum f (l.set i x) + (if p.t_flag then f p else 0) =
        survSum f l + (if x.t_flag then f x else 0) := by
  intro l
  induction l with
  | nil => intro i p x hp; simp at hp
  | cons a t ih =>
    intro i p x hp
    cases i with
    | zero =>
      simp only [List.getElem?_cons_zero, Option.some.injEq] at hp
      subst hp
      simp only [List.set_cons_zero, survSum_cons]
      abel
    | succ n =>
      simp only [List.getElem?_cons_succ] at hp
      simp only [List.set_cons_succ, survSum_cons]
      have hrec := ih n p x hp
      calc (if a.t_flag then f a else 0) + survSum f (t.set n x) +
            (if p.t_flag then f p else 0)
          = (if a.t_flag then f a else 0) +
              (survSum f (t.set n x) + (if p.t_flag then f p else 0)) := by abel
        _ = (if a.t_flag then f a else 0) +
              (survSum f t + (if x.t_flag then f x else 0)) := by rw [hrec]
        _ = (if a.t_flag then f a else 0) + survSum f t +
              (if x.t_flag then f x else 0) := by abel

theorem foldOp_eq (units : List CUnit) (ix iy : Nat) (ux uy : CUnit) (hne : ix ≠ iy)
    (hx : units[ix]? = some ux) (hy : units[iy]? = some uy) :
    foldOp units ix iy =
      (units.set ix (mergeSource { ux with t_flag := false })).set iy
        (mergeTarget { ux with t_flag := false } uy ix) := by
  have hlen : ix < units.length := (List.getElem?_eq_some_iff.mp hx).1
  simp only [foldOp, setTFlagFalse, convert, hx, List.getElem?_set_self hlen,
    List.getElem?_set_ne hne, hy, List.set_set]

theorem tflag_mergeTarget (a b : CUnit) (ix : Nat) :
    (mergeTarget a b ix).t_flag = b.t_flag := by
  unfold mergeTarget
  split <;> rfl

theorem ageTup_mergeTarget (a b : CUnit) (ix : Nat) :
    ageTup (mergeTarget a b ix) = ageTup b + ageTup a := by
  unfold mergeTarget ageTup
  split <;> simp [mergeAC, Prod.mk_add_mk]

theorem benTup_mergeTarget (a b : CUnit) (ix : Nat) :
    benTup (mergeTarget a b ix) = benTup b + benTup a := by
  unfold mergeTarget benTup
  split <;> simp [Prod.mk_add_mk]

theorem depneZ_mergeTarget (a b : CUnit) (ix : Nat) :
    depneZ (mergeTarget a b ix) = depneZ b + depneZ a + (if a.js = 2 then 2 else 1) := by
  unfold depneZ mergeTarget
  split <;> (dsimp only; push_cast; ring)

/-- The balance equation of one fold over any commutative monoid of
observations: the surviving-sum after equals the one before, with the
source's contribution swapped for the merged target's gain. -/
theorem foldOp_survSum {M : Type} [AddCommMonoid M] (f : CUnit → M)
    (units : List CUnit) (ix iy : Nat) (ux uy : CUnit) (hne : ix ≠ iy)
    (hx : units[ix]? = some ux) (hy : units[iy]? = some uy)
    (htx : ux.t_flag = true) (hty : uy.t_flag = true) :
    survSum f (foldOp units ix iy) + f ux + f uy =
      survSum f units + f (mergeTarget { ux with t_flag := false } uy ix) := by
  rw [foldOp_eq units ix iy ux uy hne hx hy]
  have hy1 : (units.set ix (mergeSource { ux with t_flag := false }))[iy]? = some uy := by
    rw [List.getElem?_set_ne hne, hy]
  have h1 := survSum_set f units ix ux (mergeSource { ux with t_flag := false }) hx
  rw [htx] at h1
  have hsfalse : (mergeSource { ux with t_flag := false }).t_flag = false := rfl
  rw [hsfalse] at h1
  simp only [if_true, Bool.false_eq_true, if_false, add_zero] at h1
  have h2 := survSum_set f (units.set ix (mergeSource { ux with t_flag := false })) iy uy
    (mergeTarget { ux with t_flag := false } uy ix) hy1
  rw [hty, tflag_mergeTarget, hty] at h2
  simp only [if_true] at h2
  calc survSum f ((units.set ix (mergeSource { ux with t_flag := false })).set iy
          (mergeTarget { ux with t_flag := false } uy ix)) + f ux + f uy
      = survSum f ((units.set ix (mergeSource { ux with t_flag := false })).set iy
          (mergeTarget { ux with t_flag := false } uy ix)) + f uy + f ux := by abel
    _ = survSum f (units.set ix (mergeSource { ux with t_flag := false })) +
          f (mergeTarget { ux with t_flag := false } uy ix) + f ux := by rw [h2]
    _ = survSum f units + f (mergeTarget { ux with t_flag := false } uy ix) := by
          rw [← h1]; abel


/-- C5 (amended): a merge as performed by the Reconciliation Pass
(t_flag cleared, then convert) conserves the sums of the age-bracket
counters and of the benefit running totals over the SURVIVING units
(over all units they are double counted, since the source's are not
cleared), while the sum of dependent counts over surviving units grows
by exactly one (two for a joint source): the source's own dependents
transfer, and its head (and spouse slot) becomes a new dependent of
the target.  The source itself no longer survives and is flagged as a
dependent. -/
theorem c5_merge_conservation_amended (units : List CUnit) (ix iy : Nat)
    (ux uy : CUnit) (hne : ix ≠ iy)
    (hx : units[ix]? = some ux) (hy : units[iy]? = some uy)
    (htx : ux.t_flag = true) (hty : uy.t_flag = true) :
    survSum ageTup (foldOp units ix iy) = survSum ageTup units ∧
    survSum benTup (foldOp units ix iy) = survSum benTup units ∧
    survSum depneZ (foldOp units ix iy) =
      survSum depneZ units + (if ux.js = 2 then 2 else 1) ∧
    (foldOp units ix iy)[ix]? = some (mergeSource { ux with t_flag := false }) ∧
    (mergeSource { ux with t_flag := false }).t_flag = false ∧
    (mergeSource { ux with t_flag := false }).ifdept = true := by
  have hiy : iy < units.length := (List.getElem?_eq_some_iff.mp hy).1
  refine ⟨?_, ?_, ?_, ?_, rfl, rfl⟩
  · have h := foldOp_survSum ageTup units ix iy ux uy hne hx hy htx hty
    rw [ageTup_mergeTarget] at h
    have hxx : ageTup { ux with t_flag := false } = ageTup ux := rfl
    rw [hxx] at h
    have h2 : survSum ageTup (foldOp units ix iy) + (ageTup ux + ageTup uy) =
        survSum ageTup units + (ageTup ux + ageTup uy) := by
      calc survSum ageTup (foldOp units ix iy) + (ageTup ux + ageTup uy)
          = survSum ageTup (foldOp units ix iy) + ageTup ux + ageTup uy := by abel
        _ = survSum ageTup units + (ageTup uy + ageTup ux) := h
        _ = survSum ageTup units + (ageTup ux + ageTup uy) := by abel
    exact add_right_cancel h2
  · have h := foldOp_survSum benTup units ix iy ux uy hne hx hy htx hty
    rw [benTup_mergeTarget] at h
    have hxx : benTup { ux with t_flag := false } = benTup ux := rfl
    rw [hxx] at h
    have h2 : survSum benTup (foldOp units ix iy) + (benTup ux + benTup uy) =
        survSum benTup units + (benTup ux + benTup uy) := by
      calc survSum benTup (foldOp units ix iy) + (benTup ux + benTup uy)
          = survSum benTup (foldOp units ix iy) + benTup ux + benTup uy := by abel
        _ = survSum benTup units + (benTup uy + benTup ux) := h
        _ = survSum benTup units + (benTup ux + benTup uy) := by abel
    exact add_right_cancel h2
  · have h := foldOp_survSum depneZ units ix iy ux uy hne hx hy htx hty
    rw [depneZ_mergeTarget] at h
    have hxx : depneZ { ux with t_flag := false } = depneZ ux := rfl
    have hjs : ({ ux with t_flag := false } : CUnit).js = ux.js := rfl
    rw [hxx, hjs] at h
    omega
  · rw [foldOp_eq units ix iy ux uy hne hx hy]
    rw [List.getElem?_set_ne (fun hcontra => hne hcontra.symm)]
    rw [List.getElem?_set_self ((List.getElem?_eq_some_iff.mp hx).1)]

/-- C5 (amended) witness: the amended conservation law evaluated on the
concrete two-unit household of the counterexample. -/
theorem c5_merge_conservation_amended_witness :
    survSum ageTup (foldOp [c5Target, c5Source] 1 0) = survSum ageTup [c5Target, c5Source] ∧
    survSum benTup (foldOp [c5Target, c5Source] 1 0) = survSum benTup [c5Target, c5Source] ∧
    survSum depneZ (foldOp [c5Target, c5Source] 1 0) =
      survSum depneZ [c5Target, c5Source] + (if c5Source.js = 2 then 2 else 1) ∧
    (foldOp [c5Target, c5Source] 1 0)[1]? =
      some (mergeSource { c5Source with t_flag := false }) ∧
    (mergeSource { c5Source with t_flag := false }).t_flag = false ∧
    (mergeSource { c5Source with t_flag := false }).ifdept = true :=
  c5_merge_conservation_amended [c5Target, c5Source] 1 0 c5Source c5Target
    (by decide) (by decide) (by decide) (by decide) (by decide)

/-! ## The Reconciliation Pass's selection and guards (claim C4) -/

theorem setTFlagFalse_getElem?_other (units : List CUnit) (ix j : Nat) (h : j ≠ ix) :
    (setTFlagFalse units ix)[j]? = units[j]? := by
  unfold setTFlagFalse
  cases hx : units[ix]? with
  | none => rfl
  | some u => exact List.getElem?_set_ne (fun hc => h hc.symm)

theorem convert_getElem?_other (units : List CUnit) (ix iy j : Nat)
    (h1 : j ≠ ix) (h2 : j ≠ iy) : (convert units ix iy)[j]? = units[j]? := by
  unfold convert
  cases hx : units[ix]? with
  | none => rfl
  | some ux =>
    cases hy : units[iy]? with
    | none => rfl
    | some uy =>
      rw [List.getElem?_set_ne (fun hc => h2 hc.symm),
        List.getElem?_set_ne (fun hc => h1 hc.symm)]

theorem foldOp_getElem?_other (units : List CUnit) (ix iy j : Nat)
    (h1 : j ≠ ix) (h2 : j ≠ iy) : (foldOp units ix iy)[j]? = units[j]? := by
  unfold foldOp
  rw [convert_getElem?_other _ ix iy j h1 h2, setTFlagFalse_getElem?_other _ ix j h1]

theorem famStep_fst (idx : Nat) (u : CUnit) (s : List CUnit × List Nat) (ix : Nat) :
    (famStep idx u s ix).1 = s.1 ∨ (famStep idx u s ix).1 = foldOp s.1 ix idx := by
  unfold famStep
  split_ifs <;> simp

theorem famStep_log (idx : Nat) (u : CUnit) (s : List CUnit × List Nat) (ix : Nat) :
    (famStep idx u s ix).2 = s.2 ∨ (famStep idx u s ix).2 = s.2 ++ [ix] := by
  unfold famStep
  split_ifs <;> simp

theorem searchIter1_none (hi : Int) (idx : Nat) (s : List CUnit × List Nat)
    (ix : Nat) (h : (s.1)[ix]? = none) : searchIter1 hi idx s ix = s := by
  unfold searchIter1
  rw [h]

theorem searchIter1_some (hi : Int) (idx : Nat) (s : List CUnit × List Nat)
    (ix : Nat) (u : CUnit) (h : (s.1)[ix]? = some u) :
    searchIter1 hi idx s ix =
      if ix ≠ idx ∧ u.ifdept = false ∧ 0 < hi ∧ u.js ≠ 2 then
        if u.relcode = 11 then
          (foldOp (famStep idx u s ix).1 ix idx, (famStep idx u s ix).2 ++ [ix])
        else famStep idx u s ix
      else s := by
  unfold searchIter1
  rw [h]

theorem searchIter1_fst_other (hi : Int) (idx : Nat) (s : List CUnit × List Nat)
    (ix j : Nat) (h1 : j ≠ ix) (h2 : j ≠ idx) :
    ((searchIter1 hi idx s ix).1)[j]? = (s.1)[j]? := by
  cases hu : s.1[ix]? with
  | none => rw [searchIter1_none hi idx s ix hu]
  | some u =>
    rw [searchIter1_some hi idx s ix u hu]
    split_ifs with hg hrel
    · rcases famStep_fst idx u s ix with hf | hf <;>
        rw [foldOp_getElem?_other _ ix idx j h1 h2, hf]
      rw [foldOp_getElem?_other _ ix idx j h1 h2]
    · rcases famStep_fst idx u s ix with hf | hf <;> rw [hf]
      rw [foldOp_getElem?_other _ ix idx j h1 h2]
    · rfl

theorem searchIter1_log_mem (hi : Int) (idx : Nat) (s : List CUnit × List Nat)
    (ix : Nat) :
    ∀ x ∈ (searchIter1 hi idx s ix).2, x ∈ s.2 ∨
      (x = ix ∧ ix ≠ idx ∧ 0 < hi ∧
        ∃ u, (s.1)[ix]? = some u ∧ u.ifdept = false ∧ u.js ≠ 2) := by
  intro x hx
  cases hu : s.1[ix]? with
  | none => rw [searchIter1_none hi idx s ix hu] at hx; exact Or.inl hx
  | some u =>
    rw [searchIter1_some hi idx s ix u hu] at hx
    split_ifs at hx with hg hrel
    · obtain ⟨hg1, hg2, hg3, hg4⟩ := hg
      simp only [List.mem_append, List.mem_singleton] at hx
      rcases hx with hx | rfl
      · rcases famStep_log idx u s ix with hf | hf
        · rw [hf] at hx
          exact Or.inl hx
        · rw [hf] at hx
          simp only [List.mem_append, List.mem_singleton] at hx
          rcases hx with hx | rfl
          · exact Or.inl hx
          · exact Or.inr ⟨rfl, hg1, hg3, u, rfl, hg2, hg4⟩
      · exact Or.inr ⟨rfl, hg1, hg3, u, rfl, hg2, hg4⟩
    · obtain ⟨hg1, hg2, hg3, hg4⟩ := hg
      rcases famStep_log idx u s ix with hf | hf
      · rw [hf] at hx
        exact Or.inl hx
      · rw [hf] at hx
        simp only [List.mem_append, List.mem_singleton] at hx
        rcases hx with hx | rfl
        · exact Or.inl hx
        · exact Or.inr ⟨rfl, hg1, hg3, u, rfl, hg2, hg4⟩
    · exact Or.inl hx

/-- The property C4 asserts of every index the Reconciliation Pass
folds, relative to the unit list the pass started from. -/
def searchGuardP (init : List CUnit) (hi : Int) (idx : Nat) (x : Nat) : Prop :=
  x ≠ idx ∧ 0 < hi ∧ ∃ u, init[x]? = some u ∧ u.ifdept = false ∧ u.js ≠ 2

theorem searchLoop_log (hi : Int) (idx : Nat) (init : List CUnit) :
    ∀ (ixs : List Nat) (s : List CUnit × List Nat),
      ixs.Nodup →
      (∀ j ∈ ixs, j ≠ idx → (s.1)[j]? = init[j]?) →
      (∀ x ∈ s.2, searchGuardP init hi idx x) →
      ∀ x ∈ (ixs.foldl (searchIter1 hi idx) s).2, searchGuardP init hi idx x := by
  intro ixs
  induction ixs with
  | nil => intro s _ _ hlog x hx; exact hlog x hx
  | cons ix rest ih =>
    intro s hnd hpres hlog x hx
    rw [List.foldl_cons] at hx
    have hndr := (List.nodup_cons.mp hnd).2
    have hnotmem := (List.nodup_cons.mp hnd).1
    refine ih (searchIter1 hi idx s ix) hndr ?_ ?_ x hx
    · intro j hj hjidx
      have hjix : j ≠ ix := fun hc => hnotmem (hc ▸ hj)
      rw [searchIter1_fst_other hi idx s ix j hjix hjidx]
      exact hpres j (List.mem_cons_of_mem ix hj) hjidx
    · intro y hy
      rcases searchIter1_log_mem hi idx s ix y hy with hmem | ⟨rfl, hne, hhi, u, hu, hdep, hjs⟩
      · exact hlog y hmem
      · exact ⟨hne, hhi, u, (hpres y (List.mem_cons_self y rest) hne) ▸ hu, hdep, hjs⟩

theorem searchMaxAux_spec (l : List CUnit) : ∀ (i : Nat) (hi : Int) (idx : Nat),
    hi ≤ (searchMaxAux l i hi idx).1 ∧
    (∀ u ∈ l, totincx u ≤ (searchMaxAux l i hi idx).1) ∧
    ((searchMaxAux l i hi idx = (hi, idx) ∧ ∀ u ∈ l, totincx u < hi) ∨
      ∃ k u, (searchMaxAux l i hi idx).2 = i + k ∧ l[k]? = some u ∧
        (searchMaxAux l i hi idx).1 = totincx u ∧
        ∀ j v, k < j → l[j]? = some v →
          totincx v < (searchMaxAux l i hi idx).1) := by
  induction l with
  | nil =>
    intro i hi idx
    exact ⟨le_refl hi, by simp, Or.inl ⟨rfl, by simp⟩⟩
  | cons a t ih =>
    intro i hi idx
    by_cases hcmp : hi ≤ totincx a
    · have hstep : searchMaxAux (a :: t) i hi idx = searchMaxAux t (i + 1) (totincx a) i := by
        show (if hi ≤ totincx a then searchMaxAux t (i + 1) (totincx a) i
          else searchMaxAux t (i + 1) hi idx) = searchMaxAux t (i + 1) (totincx a) i
        rw [if_pos hcmp]
      rw [hstep]
      obtain ⟨r1, r2, r3⟩ := ih (i + 1) (totincx a) i
      refine ⟨le_trans hcmp r1, ?_, ?_⟩
      · intro u hu
        rcases List.mem_cons.mp hu with rfl | hmem
        · exact r1
        · exact r2 u hmem
      · rcases r3 with ⟨heq, hlt⟩ | ⟨k, u, hk, hget, hval, hdom⟩
        · refine Or.inr ⟨0, a, ?_, by simp, ?_, ?_⟩
          · rw [heq]
            simp
          · rw [heq]
          · intro j v hj hget2
            cases j with
            | zero => omega
            | succ j2 =>
              have hvmem : v ∈ t := List.getElem?_mem (by simpa using hget2)
              rw [heq]
              exact hlt v hvmem
        · refine Or.inr ⟨k + 1, u, ?_, by simpa using hget, hval, ?_⟩
          · rw [hk]; omega
          · intro j v hj hget2
            cases j with
            | zero => omega
            | succ j2 => exact hdom j2 v (by omega) (by simpa using hget2)
    · have hstep : searchMaxAux (a :: t) i hi idx = searchMaxAux t (i + 1) hi idx := by
        show (if hi ≤ totincx a then searchMaxAux t (i + 1) (totincx a) i
          else searchMaxAux t (i + 1) hi idx) = searchMaxAux t (i + 1) hi idx
        rw [if_neg hcmp]
      rw [hstep]
      obtain ⟨r1, r2, r3⟩ := ih (i + 1) hi idx
      refine ⟨r1, ?_, ?_⟩
      · intro u hu
        rcases List.mem_cons.mp hu with rfl | hmem
        · exact le_trans (le_of_lt (not_le.mp hcmp)) r1
        · exact r2 u hmem
      · rcases r3 with ⟨heq, hlt⟩ | ⟨k, u, hk, hget, hval, hdom⟩
        · refine Or.inl ⟨heq, ?_⟩
          intro u hu
          rcases List.mem_cons.mp hu with rfl | hmem
          · exact not_le.mp hcmp
          · exact hlt u hmem
        · refine Or.inr ⟨k + 1, u, ?_, by simpa using hget, hval, ?_⟩
          · rw [hk]; omega
          · intro j v hj hget2
            cases j with
            | zero => omega
            | succ j2 => exact hdom j2 v (by omega) (by simpa using hget2)

theorem searchMax_spec (units : List CUnit) (hne : units ≠ [])
    (hbd : ∀ u ∈ units, searchInit ≤ totincx u) :
    ∃ top, units[(searchMax units).2]? = some top ∧
      (searchMax units).1 = totincx top ∧
      (∀ u ∈ units, totincx u ≤ totincx top) ∧
      ∀ j v, (searchMax units).2 < j → units[j]? = some v →
        totincx v < totincx top := by
  obtain ⟨r1, r2, r3⟩ := searchMaxAux_spec units 0 searchInit 0
  rcases r3 with ⟨heq, hlt⟩ | ⟨k, u, hk, hget, hval, hdom⟩
  · obtain ⟨u0, hu0⟩ := List.exists_mem_of_ne_nil units hne
    exact absurd (hbd u0 hu0) (not_le.mpr (hlt u0 hu0))
  · have hk0 : (searchMax units).2 = k := by
      unfold searchMax
      omega
    refine ⟨u, ?_, ?_, ?_, ?_⟩
    · rw [hk0]; exact hget
    · unfold searchMax
      exact hval
    · intro v hv
      have h := r2 v hv
      rw [hval] at h
      exact h
    · intro j v hj hgetj
      have h := hdom j v (by omega) hgetj
      rw [hval] at h
      exact h

theorem search_eq_of_top (units : List CUnit) (top : CUnit)
    (h : units[(searchMax units).2]? = some top) :
    search units =
      if top.ifdept then (units, [])
      else (List.range units.length).foldl
        (searchIter1 (searchMax units).1 (searchMax units).2) (units, []) := by
  unfold search
  rw [h]

/-- C40: concrete units validating the hypotheses of the C4 theorem. -/
def c4Units : List CUnit :=
  [{ defaultUnit with was := 10 }, { defaultUnit with was := 20 }]

/-- C4: CONFIRMED.  The Reconciliation Pass's argmax loop selects the
unit of maximal total income, with the non-strict comparison letting
the LAST unit of equal-or-greater income win (every later unit is
strictly below the selected one); and every index the pass folds
(logged by search) is distinct from the top index, was not already a
dependent, is not a joint filer, and is only folded when the top
income is strictly positive and the top unit is not itself a
dependent.  The bound hypothesis reflects the sentinel -9.9e32 the
source initialises highest with. -/
theorem c4_search_target_and_guards (units : List CUnit) (hne : units ≠ [])
    (hbd : ∀ u ∈ units, searchInit ≤ totincx u) :
    (∃ top, units[(searchMax units).2]? = some top ∧
      (searchMax units).1 = totincx top ∧
      (∀ u ∈ units, totincx u ≤ totincx top) ∧
      (∀ j v, (searchMax units).2 < j → units[j]? = some v →
        totincx v < totincx top)) ∧
    ∀ ix ∈ (search units).2,
      ix ≠ (searchMax units).2 ∧ 0 < (searchMax units).1 ∧
      (∃ u, units[ix]? = some u ∧ u.ifdept = false ∧ u.js ≠ 2) ∧
      ∃ top, units[(searchMax units).2]? = some top ∧ top.ifdept = false := by
  obtain ⟨top, htop, hval, hmax, hlast⟩ := searchMax_spec units hne hbd
  refine ⟨⟨top, htop, hval, hmax, hlast⟩, ?_⟩
  intro ix hix
  rw [search_eq_of_top units top htop] at hix
  by_cases hif : top.ifdept
  · rw [if_pos hif] at hix
    simp at hix
  · rw [if_neg hif] at hix
    have hP := searchLoop_log (searchMax units).1 (searchMax units).2 units
      (List.range units.length) (units, []) (List.nodup_range units.length)
      (fun j _ _ => rfl) (by intro x hx; simp at hx) ix hix
    unfold searchGuardP at hP
    obtain ⟨hne2, hhi, u, hu, hdep, hjs⟩ := hP
    refine ⟨hne2, hhi, ⟨u, hu, hdep, hjs⟩, top, htop, ?_⟩
    revert hif
    cases top.ifdept <;> simp

/-- C4 witness: the theorem applied to the two concrete units of
c4Units (incomes 10 and 20, no ties; the second unit is selected). -/
theorem c4_search_target_and_guards_witness :
    (∃ top, c4Units[(searchMax c4Units).2]? = some top ∧
      (searchMax c4Units).1 = totincx top ∧
      (∀ u ∈ c4Units, totincx u ≤ totincx top) ∧
      (∀ j v, (searchMax c4Units).2 < j → c4Units[j]? = some v →
        totincx v < totincx top)) ∧
    ∀ ix ∈ (search c4Units).2,
      ix ≠ (searchMax c4Units).2 ∧ 0 < (searchMax c4Units).1 ∧
      (∃ u, c4Units[ix]? = some u ∧ u.ifdept = false ∧ u.js ≠ 2) ∧
      ∃ top, c4Units[(searchMax c4Units).2]? = some top ∧ top.ifdept = false :=
  c4_search_target_and_guards c4Units (by decide) (by decide)

/-! ## One unit per person in group quarters (claim C9) -/

theorem set_of_getElem? {α : Type} :
    ∀ (l : List α) (i : Nat) (x : α), l[i]? = some x → l.set i x = l := by
  intro l
  induction l with
  | nil => intro i x hx; simp at hx
  | cons a t ih =>
    intro i x hx
    cases i with
    | zero =>
      simp only [List.getElem?_cons_zero, Option.some.injEq] at hx
      subst hx
      rfl
    | succ n =>
      simp only [List.getElem?_cons_succ] at hx
      simp only [List.set_cons_succ]
      rw [ih n x hx]

theorem map_set_same {α β : Type} (f : α → β) (l : List α) (i : Nat) (p x : α)
    (hget : l[i]? = some p) (hfx : f x = f p) : (l.set i x).map f = l.map f := by
  rw [List.map_set, hfx]
  apply set_of_getElem?
  rw [List.getElem?_map, hget]
  rfl

theorem depScan_cons_none (ri i : Nat) (rest : List Nat) (s : CUnit × List Person)
    (h : (s.2)[i]? = none) :
    depScan ri (i :: rest) s = depScan ri rest s := by
  conv_lhs => unfold depScan
  rw [h]

theorem depScan_cons_some (ri i : Nat) (rest : List Nat) (s : CUnit × List Person)
    (p : Person) (h : (s.2)[i]? = some p) :
    depScan ri (i :: rest) s =
      if i ≠ ri ∧ p.ffpos = s.1.xfid ∧ p.d_flag = false ∧ p.s_flag = false ∧
          p.h_flag = false then
        if ifdept p s.1 then
          depScan ri rest (addept p s.1 i, s.2.set i { p with d_flag := ifdept p s.1 })
        else depScan ri rest (s.1, s.2.set i { p with d_flag := ifdept p s.1 })
      else depScan ri rest s := by
  conv_lhs => unfold depScan
  rw [h]

/-- The dependent scan changes neither the head's line number nor any
household member's line number. -/
theorem depScan_linenos (ri : Nat) : ∀ (ixs : List Nat) (s : CUnit × List Person),
    (depScan ri ixs s).1.a_lineno = s.1.a_lineno ∧
    (depScan ri ixs s).2.map Person.a_lineno = s.2.map Person.a_lineno := by
  intro ixs
  induction ixs with
  | nil => intro s; exact ⟨rfl, rfl⟩
  | cons i rest ih =>
    intro s
    cases hp : (s.2)[i]? with
    | none => rw [depScan_cons_none ri i rest s hp]; exact ih s
    | some p =>
      rw [depScan_cons_some ri i rest s p hp]
      have hkeep : ({ p with d_flag := ifdept p s.1 } : Person).a_lineno = p.a_lineno := rfl
      split_ifs with hg hd
      · obtain ⟨ih1, ih2⟩ := ih (addept p s.1 i, s.2.set i { p with d_flag := ifdept p s.1 })
        constructor
        · rw [ih1]
          rfl
        · rw [ih2]
          exact map_set_same Person.a_lineno s.2 i p _ hp hkeep
      · obtain ⟨ih1, ih2⟩ := ih (s.1, s.2.set i { p with d_flag := ifdept p s.1 })
        constructor
        · rw [ih1]
        · rw [ih2]
          exact map_set_same Person.a_lineno s.2 i p _ hp hkeep
      · exact ih s

theorem create_none (h : List Person) (ri : Nat) (hrec : h[ri]? = none) :
    create h ri = none := by
  unfold create
  rw [hrec]

theorem spouseStep_linenos (h : List Person) (record : Person)
    (s1 : CUnit × List Person) (hs : spouseStep h record = some s1) :
    s1.1.a_lineno = record.a_lineno ∧
    s1.2.map Person.a_lineno = h.map Person.a_lineno := by
  unfold spouseStep at hs
  split_ifs at hs with hguard
  · cases hfind : h.findIdx? (fun p =>
        p.a_lineno == record.a_spouse && p.a_spouse == record.a_lineno) with
    | none =>
      rw [hfind] at hs
      exact Option.noConfusion hs
    | some si =>
      simp only [hfind] at hs
      cases hsi : h[si]? with
      | none =>
        simp only [hfind, hsi] at hs
        exact Option.noConfusion hs
      | some spouse =>
        simp only [hfind, hsi, Option.some.injEq] at hs
        rw [← hs]
        refine ⟨rfl, ?_⟩
        exact map_set_same Person.a_lineno h si spouse _ hsi rfl
  · simp only [Option.some.injEq] at hs
    rw [← hs]
    exact ⟨rfl, rfl⟩

/-- A successful create keeps every household line number and heads the
unit with the reference person's line number. -/
theorem create_linenos (h : List Person) (ri : Nat) (u : CUnit) (h2 : List Person)
    (hc : create h ri = some (u, h2)) :
    h2.map Person.a_lineno = h.map Person.a_lineno ∧
    ∃ r, h[ri]? = some r ∧ u.a_lineno = r.a_lineno := by
  cases hrec : h[ri]? with
  | none => rw [create_none h ri hrec] at hc; simp at hc
  | some record =>
    have hc2 : createBody h ri record = some (u, h2) := by
      rw [← hc]
      simp only [create, hrec]
    cases hs : spouseStep h record with
    | none =>
      have hb : createBody h ri record = none := by
        unfold createBody
        rw [hs]
      rw [hb] at hc2
      simp at hc2
    | some s1 =>
      have hb : createBody h ri record =
          some ({ (depScan ri (List.range s1.2.length) s1).1 with t_flag := true },
            (depScan ri (List.range s1.2.length) s1).2) := by
        unfold createBody
        rw [hs]
      rw [hb] at hc2
      simp only [Option.some.injEq, Prod.mk.injEq] at hc2
      obtain ⟨hu, hh2⟩ := hc2
      obtain ⟨hs1, hs2⟩ := spouseStep_linenos h record s1 hs
      obtain ⟨hd1, hd2⟩ := depScan_linenos ri (List.range s1.2.length) s1
      refine ⟨?_, record, rfl, ?_⟩
      · rw [← hh2, hd2, hs2]
      · rw [← hu]
        show (depScan ri (List.range s1.2.length) s1).1.a_lineno = record.a_lineno
        rw [hd1, hs1]

theorem range_map_getD (L : List Int) :
    (List.range L.length).map (fun i => (L[i]?).getD 0) = L := by
  induction L with
  | nil => rfl
  | cons a t ih =>
    simp only [List.length_cons, List.range_succ_eq_map, List.map_cons, List.map_map]
    have hcomp : ((fun i => ((a :: t)[i]?).getD 0) ∘ Nat.succ) =
        (fun i => (t[i]?).getD 0) :=
      funext fun i => by simp [Function.comp, List.getElem?_cons_succ]
    rw [hcomp, ih]
    simp

theorem processGroupAux_nil (us : List CUnit) (h : List Person) :
    processGroupAux [] us h = some (us, h) := rfl

theorem processGroupAux_cons_none (i : Nat) (rest : List Nat) (us : List CUnit)
    (h : List Person) (hc : create h i = none) :
    processGroupAux (i :: rest) us h = none := by
  conv_lhs => unfold processGroupAux
  rw [hc]

theorem processGroupAux_cons_some (i : Nat) (rest : List Nat) (us : List CUnit)
    (h : List Person) (u : CUnit) (h1 : List Person)
    (hc : create h i = some (u, h1)) :
    processGroupAux (i :: rest) us h = processGroupAux rest (us ++ [u]) h1 := by
  conv_lhs => unfold processGroupAux
  rw [hc]

/-- Each successful run of the group-quarters worker emits the
accumulated units followed by one unit per listed position, headed by
the person at that position, and preserves the household's line
numbers. -/
theorem processGroupAux_linenos : ∀ (ixs : List Nat) (us : List CUnit)
    (h : List Person) (units : List CUnit) (h2 : List Person),
    processGroupAux ixs us h = some (units, h2) →
    units.map CUnit.a_lineno = us.map CUnit.a_lineno ++
      ixs.map (fun i => ((h.map Person.a_lineno)[i]?).getD 0) ∧
    h2.map Person.a_lineno = h.map Person.a_lineno := by
  intro ixs
  induction ixs with
  | nil =>
    intro us h units h2 hp
    rw [processGroupAux_nil] at hp
    simp only [Option.some.injEq, Prod.mk.injEq] at hp
    obtain ⟨hu, hh⟩ := hp
    subst hu
    subst hh
    simp
  | cons i rest ih =>
    intro us h units h2 hp
    cases hc : create h i with
    | none =>
      rw [processGroupAux_cons_none i rest us h hc] at hp
      exact Option.noConfusion hp
    | some s =>
      obtain ⟨u, h1⟩ := s
      rw [processGroupAux_cons_some i rest us h u h1 hc] at hp
      obtain ⟨ih1, ih2⟩ := ih (us ++ [u]) h1 units h2 hp
      obtain ⟨hh1, r, hr, hlin⟩ := create_linenos h i u h1 hc
      constructor
      · rw [ih1, hh1]
        have hmap : ((h.map Person.a_lineno)[i]?).getD 0 = u.a_lineno := by
          rw [List.getElem?_map, hr, hlin]
          rfl
        simp [hmap, List.map_append]
        rw [hr]
        exact hlin
      · rw [ih2, hh1]

/-- C9 amended: for a group-quarters household (h_type 9) the driver
does construct exactly one unit per person, in household order, each
headed by the corresponding person (the emitted unit carries that
person's line number).  The further part of the claim - that no
spousal folding is performed and no dependents are searched - is
false: the units come from the general constructor, which folds
mutual spouses and scans the whole household for dependents (see the
counterexample). -/
theorem c9_group_quarters_amended (house : List Person)
    (units : List CUnit) (h2 : List Person)
    (hgq : isGroupQuarters house = true)
    (hp : processGroup house = some (units, h2)) :
    units.length = house.length ∧
    units.map CUnit.a_lineno = house.map Person.a_lineno := by
  obtain ⟨h1, _⟩ :=
    processGroupAux_linenos (List.range house.length) [] house units h2 hp
  have hlin : units.map CUnit.a_lineno = house.map Person.a_lineno := by
    rw [h1]
    simp only [List.map_nil, List.nil_append]
    have hrg := range_map_getD (house.map Person.a_lineno)
    rw [List.length_map] at hrg
    exact hrg
  refine ⟨?_, hlin⟩
  have hlen := congrArg List.length hlin
  simpa using hlen

theorem c9_group_quarters_amended_witness :
    isGroupQuarters c9House = true ∧
    ∃ units h2, processGroup c9House = some (units, h2) ∧
      units.length = c9House.length ∧
      units.map CUnit.a_lineno = c9House.map Person.a_lineno := by
  refine ⟨by decide, ?_⟩
  cases hp : processGroup c9House with
  | none => exact absurd hp (by decide)
  | some s =>
    exact ⟨s.1, s.2, rfl,
      c9_group_quarters_amended c9House s.1 s.2 (by decide) hp⟩

theorem foldOp_getElem?_src (units : List CUnit) (ix iy : Nat) (ux uy : CUnit)
    (hne : ix ≠ iy) (hx : units[ix]? = some ux) (hy : units[iy]? = some uy) :
    (foldOp units ix iy)[ix]? = some (mergeSource { ux with t_flag := false }) := by
  rw [foldOp_eq units ix iy ux uy hne hx hy]
  rw [List.getElem?_set_ne (fun hc => hne hc.symm)]
  exact List.getElem?_set_self ((List.getElem?_eq_some_iff.mp hx).1)

theorem foldOp_getElem?_tgt (units : List CUnit) (ix iy : Nat) (ux uy : CUnit)
    (hne : ix ≠ iy) (hx : units[ix]? = some ux) (hy : units[iy]? = some uy) :
    (foldOp units ix iy)[iy]? =
      some (mergeTarget { ux with t_flag := false } uy ix) := by
  rw [foldOp_eq units ix iy ux uy hne hx hy]
  apply List.getElem?_set_self
  rw [List.length_set]
  exact (List.getElem?_eq_some_iff.mp hy).1

theorem mergeTarget_ac (a b : CUnit) (ix : Nat) :
    (mergeTarget a b ix).ac = mergeAC b.ac a.ac := by
  unfold mergeTarget
  split <;> rfl

theorem mergeTarget_ssi (a b : CUnit) (ix : Nat) :
    (mergeTarget a b ix).ssi = b.ssi + a.ssi := by
  unfold mergeTarget
  split <;> rfl

theorem mergeTarget_benSlots (a b : CUnit) (ix : Nat) :
    (mergeTarget a b ix).benSlots = b.benSlots ++ a.benSlots := by
  unfold mergeTarget
  split <;> rfl

theorem mergeTarget_depne_single (a b : CUnit) (ix : Nat) (h : a.js ≠ 2) :
    (mergeTarget a b ix).depne = b.depne + a.depne + 1 := by
  unfold mergeTarget
  rw [if_neg h]

theorem mergeTarget_deps_single (a b : CUnit) (ix : Nat) (h : a.js ≠ 2) :
    (mergeTarget a b ix).deps = b.deps ++ [((ix : Int), some a.ageh)] ++
      transferredDeps (a.deps.take a.depne) (b.depne + 1) := by
  unfold mergeTarget
  rw [if_neg h]

/-- When the folded unit's family type is 1, 3 or 5 and its total
income is at most 3000, the family-type branch folds it (both the
income-nonpositive and the 0-to-3000 arm perform the same fold). -/
theorem famStep_fires (idx : Nat) (u : CUnit) (s : List CUnit × List Nat)
    (ix : Nat) (hfam : u.ftype = 1 ∨ u.ftype = 3 ∨ u.ftype = 5)
    (hinc : totincx u ≤ 3000) :
    famStep idx u s ix = (foldOp s.1 ix idx, s.2 ++ [ix]) := by
  unfold famStep
  rw [if_pos hfam]
  by_cases h0 : totincx u ≤ 0
  · rw [if_pos h0]
  · rw [if_neg h0, if_pos hinc]

/-- C10 amended: a unit passing the general fold guards that has
family type 1, 3 or 5, total income at most 3000 and relcode 11 is
indeed converted into the top unit twice in one loop iteration, and
the top unit's age-bracket counters and benefit totals are added in
twice and the head's dependent slot is duplicated; but the dependent
count is NOT added twice - the first convert zeroes the source's
depne, so the second fold contributes only the slot for the source
head itself, leaving the target with top.depne + u.depne + 2
dependents rather than a doubled count. -/
theorem c10_double_convert_amended (hi : Int) (idx ix : Nat)
    (units : List CUnit) (log : List Nat) (u top : CUnit)
    (hx : units[ix]? = some u) (htop : units[idx]? = some top)
    (hne : ix ≠ idx) (hdep : u.ifdept = false) (hhi : 0 < hi)
    (hjs : u.js ≠ 2) (hfam : u.ftype = 1 ∨ u.ftype = 3 ∨ u.ftype = 5)
    (hinc : totincx u ≤ 3000) (hrel : u.relcode = 11) :
    searchIter1 hi idx (units, log) ix =
      (foldOp (foldOp units ix idx) ix idx, log ++ [ix, ix]) ∧
    (∃ t2, (foldOp (foldOp units ix idx) ix idx)[idx]? = some t2 ∧
      t2.ac = mergeAC (mergeAC top.ac u.ac) u.ac ∧
      t2.depne = top.depne + u.depne + 2 ∧
      t2.deps = top.deps ++ [((ix : Int), some u.ageh)] ++
        transferredDeps (u.deps.take u.depne) (top.depne + 1) ++
        [((ix : Int), some u.ageh)] ∧
      t2.ssi = top.ssi + u.ssi + u.ssi ∧
      t2.benSlots = top.benSlots ++ u.benSlots ++ u.benSlots) ∧
    (∃ s2, (foldOp (foldOp units ix idx) ix idx)[ix]? = some s2 ∧
      s2.ifdept = true ∧ s2.t_flag = false ∧ s2.depne = 0) := by
  have hfold1x := foldOp_getElem?_src units ix idx u top hne hx htop
  have hfold1y := foldOp_getElem?_tgt units ix idx u top hne hx htop
  have hfold2x := foldOp_getElem?_src (foldOp units ix idx) ix idx
    (mergeSource { u with t_flag := false })
    (mergeTarget { u with t_flag := false } top ix) hne hfold1x hfold1y
  have hfold2y := foldOp_getElem?_tgt (foldOp units ix idx) ix idx
    (mergeSource { u with t_flag := false })
    (mergeTarget { u with t_flag := false } top ix) hne hfold1x hfold1y
  refine ⟨?_, ⟨_, hfold2y, ?_, ?_, ?_, ?_, ?_⟩, ⟨_, hfold2x, rfl, rfl, rfl⟩⟩
  · rw [searchIter1_some hi idx (units, log) ix u hx,
      if_pos ⟨hne, hdep, hhi, hjs⟩, if_pos hrel,
      famStep_fires idx u (units, log) ix hfam hinc]
    simp
  · rw [mergeTarget_ac, mergeTarget_ac]
    rfl
  · rw [mergeTarget_depne_single
        { mergeSource { u with t_flag := false } with t_flag := false }
        (mergeTarget { u with t_flag := false } top ix) ix hjs,
      mergeTarget_depne_single { u with t_flag := false } top ix hjs]
    show top.depne + u.depne + 1 + 0 + 1 = top.depne + u.depne + 2
    omega
  · rw [mergeTarget_deps_single
        { mergeSource { u with t_flag := false } with t_flag := false }
        (mergeTarget { u with t_flag := false } top ix) ix hjs,
      mergeTarget_deps_single { u with t_flag := false } top ix hjs]
    show (top.deps ++ [((ix : Int), some u.ageh)] ++
        transferredDeps (u.deps.take u.depne) (top.depne + 1) ++
        [((ix : Int), some u.ageh)]) ++ ([] : List (Int × Option Int)) =
      top.deps ++ [((ix : Int), some u.ageh)] ++
        transferredDeps (u.deps.take u.depne) (top.depne + 1) ++
        [((ix : Int), some u.ageh)]
    simp
  · rw [mergeTarget_ssi, mergeTarget_ssi]
    rfl
  · rw [mergeTarget_benSlots, mergeTarget_benSlots]
    rfl

theorem c10_double_convert_amended_witness :
    searchIter1 1 0 ([c10Top, c10Source], []) 1 =
      (foldOp (foldOp [c10Top, c10Source] 1 0) 1 0, [] ++ [1, 1]) ∧
    (∃ t2, (foldOp (foldOp [c10Top, c10Source] 1 0) 1 0)[0]? = some t2 ∧
      t2.ac = mergeAC (mergeAC c10Top.ac c10Source.ac) c10Source.ac ∧
      t2.depne = c10Top.depne + c10Source.depne + 2 ∧
      t2.deps = c10Top.deps ++ [(((1 : Nat) : Int), some c10Source.ageh)] ++
        transferredDeps (c10Source.deps.take c10Source.depne)
          (c10Top.depne + 1) ++
        [(((1 : Nat) : Int), some c10Source.ageh)] ∧
      t2.ssi = c10Top.ssi + c10Source.ssi + c10Source.ssi ∧
      t2.benSlots = c10Top.benSlots ++ c10Source.benSlots ++
        c10Source.benSlots) ∧
    (∃ s2, (foldOp (foldOp [c10Top, c10Source] 1 0) 1 0)[1]? = some s2 ∧
      s2.ifdept = true ∧ s2.t_flag = false ∧ s2.depne = 0) :=
  c10_double_convert_amended 1 0 1 [c10Top, c10Source] [] c10Source c10Top
    (by decide) (by decide) (by decide) (by decide) (by decide) (by decide)
    (by decide) (by decide) (by decide)
